import Mathlib

/-!
Shallow embedding of the semantic cache implemented in
Module_3/Semantic_Cache/Semantic_cache_from_scratch.ipynb.

Floating point values are modelled as rationals.  The faiss IndexFlatL2
object is modelled as the list of inserted vectors in insertion order,
and index.search is modelled as an exact leftmost-argmin scan by squared
euclidean distance, returning the sentinel pair (-1, FLT_MAX) on an
empty index, as faiss does for missing neighbours.  The durable JSON
file is modelled as a DiskState value carried inside the cache state;
json.load outcomes are modelled as the three constructors of DiskState.
Python exceptions are modelled as values of PyError inside Except.
-/

/-- Squared L2 (euclidean) distance, the metric of faiss.IndexFlatL2:
sum of squared per-dimension differences, no normalisation. -/
def sqDist (v w : List ℚ) : ℚ :=
  (List.zipWith (fun a b => (a - b) ^ 2) v w).sum

/-- Sentinel distance faiss reports for a missing neighbour (FLT_MAX). -/
def FLT_MAX : ℚ := 340282346638528859811704183484516925440

/-- Dimensionality hard-coded by faiss.IndexFlatL2(768) in the notebook. -/
def embedDim : Nat := 768

/-- Leftmost-argmin scan: given the best (position, distance) so far and
the remaining distances starting at position i, return the position and
value of the minimum, keeping the earlier position on ties. -/
def bestOf : Nat × ℚ → List ℚ → Nat → Nat × ℚ
  | best, [], _ => best
  | best, d :: rest, i =>
      if d < best.2 then bestOf (i, d) rest (i + 1) else bestOf best rest (i + 1)

/-- Model of self.index.search(embedding, 1): the label and squared
distance of the nearest stored vector, or (-1, FLT_MAX) when the index
is empty. -/
def searchNearest (index : List (List ℚ)) (q : List ℚ) : Int × ℚ :=
  match index with
  | [] => (-1, FLT_MAX)
  | u :: us =>
      let best := bestOf (0, sqDist q u) (us.map (fun v => sqDist q v)) 1
      ((best.1 : Int), best.2)

/-- Python list indexing semantics for cache lookups: a negative index
counts from the end; an index out of range yields none (IndexError). -/
def pyGet (l : List String) (i : Int) : Option String :=
  let j : Int := if i < 0 then (l.length : Int) + i else i
  if 0 ≤ j then l.get? j.toNat else none

/-- Python exceptions that the notebook code can raise. -/
inductive PyError where
  | runtimeError (msg : String)
  | typeError (msg : String)
  | keyError (key : String)
  | jsonDecodeError
  deriving DecidableEq, Repr

/-- Message of an exception, as interpolated by f-strings in the code. -/
def PyError.msg : PyError → String
  | .runtimeError m => m
  | .typeError m => m
  | .keyError k => k
  | .jsonDecodeError => "Expecting value"

/-- Parsed JSON body of a 200 response from the Ares endpoint.  The only
field the code reads is result[data][response_text]; data_response_text
is some t when that nested field is present and a string t. -/
structure AresResult where
  data_response_text : Option String
  deriving DecidableEq, Repr

/-- Outcome of the HTTP round trip performed by requests.post. -/
inductive HttpResult where
  /-- Status 200; the field holds the JSON parse of the body, none when
  the body is not valid JSON (response.json() raises ValueError). -/
  | success (parsed : Option AresResult)
  /-- A completed response with a non-200 status code. -/
  | httpError (status : Nat)
  /-- requests.exceptions.RequestException (network failure, timeout). -/
  | requestException
  deriving DecidableEq, Repr

/-- Model of make_prediction: raises RuntimeError when the API key is
missing or empty; returns the parsed JSON on a 200 response; returns
None (catching the failure) on a non-200 status, a non-JSON body, or a
request exception. -/
def make_prediction (api_key : Option String) (http : HttpResult) :
    Except PyError (Option AresResult) :=
  match api_key with
  | none => .error (.runtimeError "Missing ARES_API_KEY in Colab userdata")
  | some k =>
      if k = "" then .error (.runtimeError "Missing ARES_API_KEY in Colab userdata")
      else
        match http with
        | .success parsed => .ok parsed
        | .httpError _ => .ok none
        | .requestException => .ok none

/-- Model of SemanticCaching.generate_answer: calls make_prediction,
extracts result[data][response_text], and re-raises any exception as a
RuntimeError with a generate_answer prefix.  Subscripting None raises
TypeError; a missing nested field raises KeyError. -/
def generate_answer (api_key : Option String) (http : HttpResult) :
    Except PyError (AresResult × String) :=
  let inner : Except PyError (AresResult × String) :=
    match make_prediction api_key http with
    | .error e => .error e
    | .ok none => .error (.typeError "NoneType object is not subscriptable")
    | .ok (some r) =>
        match r.data_response_text with
        | none => .error (.keyError "response_text")
        | some t => .ok (r, t)
  match inner with
  | .error e => .error (.runtimeError ("Error during generate_answer method: " ++ e.msg))
  | .ok v => .ok v

/-- The four aligned lists of self.cache.  A value parsed from disk may
have lists of unequal length; nothing in load_cache validates them. -/
structure Cache where
  questions : List String
  embeddings : List (List ℚ)
  answers : List AresResult
  response_text : List String
  deriving DecidableEq, Repr

/-- The empty cache structure the code builds on first run or clear. -/
def emptyCache : Cache :=
  { questions := [], embeddings := [], answers := [], response_text := [] }

/-- Contents of the JSON file backing the cache, as seen by json.load. -/
inductive DiskState where
  /-- The file does not exist (open raises FileNotFoundError). -/
  | absent
  /-- The file exists but json.load raises JSONDecodeError on it. -/
  | unparseable
  /-- The file parses to the cache structure c. -/
  | parsed (c : Cache)
  deriving DecidableEq, Repr

/-- Model of SemanticCaching.load_cache: a missing file yields the empty
structure; a parse failure propagates (only FileNotFoundError is
caught); a parsed file is accepted as-is with no validation. -/
def load_cache (disk : DiskState) : Except PyError Cache :=
  match disk with
  | .absent => .ok emptyCache
  | .unparseable => .error .jsonDecodeError
  | .parsed c => .ok c

/-- State of one SemanticCaching instance: the faiss index vectors, the
in-memory cache lists, the hit threshold, and the durable file. -/
structure SCState where
  index : List (List ℚ)
  cache : Cache
  euclidean_threshold : ℚ
  disk : DiskState
  deriving DecidableEq, Repr

/-- Model of SemanticCaching.save_cache: whole-file overwrite of the
JSON file with the current in-memory cache. -/
def save_cache (s : SCState) : SCState :=
  { s with disk := .parsed s.cache }

/-- Model of SemanticCaching.clear_cache: reset the in-memory lists,
reinitialise the faiss index, and persist the empty structure. -/
def clear_cache (s : SCState) : SCState :=
  save_cache { s with cache := emptyCache, index := [] }

/-- Model of SemanticCaching.__init__: a fresh empty IndexFlatL2(768),
threshold 0.3, then either clear_cache or load_cache.  Loading fills
only self.cache; the freshly created index is left empty. -/
def scInit (disk : DiskState) (clear_on_init : Bool) : Except PyError SCState :=
  let base : SCState :=
    { index := [], cache := emptyCache, euclidean_threshold := 3 / 10, disk := disk }
  if clear_on_init then .ok (clear_cache base)
  else
    match load_cache disk with
    | .error e => .error e
    | .ok c => .ok { base with cache := c }

instance {ε α : Type} [DecidableEq ε] [DecidableEq α] : DecidableEq (Except ε α)
  | .ok a, .ok b =>
      if h : a = b then .isTrue (by rw [h])
      else .isFalse (by intro he; cases he; exact h rfl)
  | .ok _, .error _ => .isFalse (by intro h; cases h)
  | .error _, .ok _ => .isFalse (by intro h; cases h)
  | .error a, .error b =>
      if h : a = b then .isTrue (by rw [h])
      else .isFalse (by intro he; cases he; exact h rfl)

/-- Observable outcome of one ask call: the returned value or raised
exception, the state after the call, the number of AnswerProvider
invocations, the number of writes of the durable file, and whether the
hit branch was taken. -/
structure AskOutcome where
  result : Except PyError String
  state : SCState
  providerCalls : Nat
  fileWrites : Nat
  hit : Bool
  deriving DecidableEq, Repr

/-- Miss path of ask: call generate_answer; on failure re-raise as a
RuntimeError with the state untouched (the appends come after the
call); on success append to the four lists, add the vector to the
index, and save the cache file. -/
def askMiss (api_key : Option String) (http : String → HttpResult)
    (s : SCState) (question : String) (embedding : List ℚ) : AskOutcome :=
  match generate_answer api_key (http question) with
  | .error e =>
      { result := .error (.runtimeError ("Error during ask method: " ++ e.msg)),
        state := s, providerCalls := 1, fileWrites := 0, hit := false }
  | .ok (answer, response_text) =>
      let c2 : Cache :=
        { questions := s.cache.questions ++ [question],
          embeddings := s.cache.embeddings ++ [embedding],
          answers := s.cache.answers ++ [answer],
          response_text := s.cache.response_text ++ [response_text] }
      { result := .ok response_text,
        state := save_cache { s with cache := c2, index := s.index ++ [embedding] },
        providerCalls := 1, fileWrites := 1, hit := false }

/-- Model of SemanticCaching.ask.  The encoder, API key and HTTP
behaviour are parameters.  A dimension mismatch makes index.search
raise, which the enclosing except re-raises as RuntimeError.  The two
nested guards of the code, first 0 <= D[0] and then I[0][0] != -1 with
D[0][0] <= threshold, route to the miss path whenever either fails, so
they are written as one conjunction.  The hit branch returns the cached
response_text at the returned row and changes nothing. -/
def ask (enc : String → List ℚ) (api_key : Option String)
    (http : String → HttpResult) (s : SCState) (question : String) : AskOutcome :=
  if (enc question).length = embedDim then
    if 0 ≤ (searchNearest s.index (enc question)).2 ∧
        (searchNearest s.index (enc question)).1 ≠ -1 ∧
        (searchNearest s.index (enc question)).2 ≤ s.euclidean_threshold then
      match pyGet s.cache.response_text (searchNearest s.index (enc question)).1 with
      | some t =>
          { result := .ok t, state := s, providerCalls := 0, fileWrites := 0, hit := true }
      | none =>
          { result := .error (.runtimeError "Error during ask method: list index out of range"),
            state := s, providerCalls := 0, fileWrites := 0, hit := true }
    else
      askMiss api_key http s question (enc question)
  else
    { result := .error (.runtimeError "Error during ask method: assertion d == self.d failed"),
      state := s, providerCalls := 0, fileWrites := 0, hit := false }

/-- True exactly when the HTTP outcome is a 200 response whose JSON body
carries a data.response_text string, the only case the pipeline treats
as success. -/
def httpSuccessful : HttpResult → Bool
  | .success (some r) => r.data_response_text.isSome
  | _ => false

/-! Basic facts about the distance and the argmin scan. -/

theorem sqDist_nonneg (v w : List ℚ) : 0 ≤ sqDist v w := by
  induction v generalizing w with
  | nil => simp [sqDist]
  | cons a v ih =>
      cases w with
      | nil => simp [sqDist]
      | cons b w =>
          have h1 := ih w
          have h2 : 0 ≤ (a - b) ^ 2 := sq_nonneg _
          simp only [sqDist, List.zipWith_cons_cons, List.sum_cons] at h1 ⊢
          linarith

theorem sqDist_self (v : List ℚ) : sqDist v v = 0 := by
  induction v with
  | nil => rfl
  | cons a v ih =>
      simp only [sqDist, List.zipWith_cons_cons, List.sum_cons] at ih ⊢
      simp [ih, sub_self]

theorem bestOf_fst_lt (ds : List ℚ) :
    ∀ (b : Nat × ℚ) (i : Nat), b.1 < i → (bestOf b ds i).1 < i + ds.length := by
  induction ds with
  | nil => intro b i h; simpa [bestOf] using h
  | cons d rest ih =>
      intro b i h
      simp only [bestOf, List.length_cons]
      by_cases hd : d < b.2
      · rw [if_pos hd]
        have h2 := ih (i, d) (i + 1) (Nat.lt_succ_self i)
        omega
      · rw [if_neg hd]
        have h2 := ih b (i + 1) (Nat.lt_succ_of_lt h)
        omega

theorem bestOf_snd_le (ds : List ℚ) :
    ∀ (b : Nat × ℚ) (i : Nat),
      (bestOf b ds i).2 ≤ b.2 ∧ ∀ d ∈ ds, (bestOf b ds i).2 ≤ d := by
  induction ds with
  | nil =>
      intro b i
      refine ⟨le_refl _, ?_⟩
      intro d hd
      cases hd
  | cons d rest ih =>
      intro b i
      simp only [bestOf]
      by_cases hd : d < b.2
      · rw [if_pos hd]
        obtain ⟨h1, h2⟩ := ih (i, d) (i + 1)
        refine ⟨le_trans h1 (le_of_lt hd), ?_⟩
        intro x hx
        rcases List.mem_cons.mp hx with h | h
        · rw [h]; exact h1
        · exact h2 x h
      · rw [if_neg hd]
        obtain ⟨h1, h2⟩ := ih b (i + 1)
        refine ⟨h1, ?_⟩
        intro x hx
        rcases List.mem_cons.mp hx with h | h
        · rw [h]; exact le_trans h1 (not_lt.mp hd)
        · exact h2 x h

theorem bestOf_get (ds : List ℚ) :
    ∀ (b : Nat × ℚ) (i : Nat), bestOf b ds i = b ∨
      ∃ j, j < ds.length ∧ (bestOf b ds i).1 = i + j ∧
        ds.get? j = some (bestOf b ds i).2 := by
  induction ds with
  | nil => intro b i; exact Or.inl rfl
  | cons d rest ih =>
      intro b i
      simp only [bestOf, List.length_cons]
      by_cases hd : d < b.2
      · rw [if_pos hd]
        rcases ih (i, d) (i + 1) with h | ⟨j, hj, hfst, hget⟩
        · refine Or.inr ⟨0, by omega, ?_, ?_⟩
          · rw [h]; simp
          · rw [h]; simp
        · refine Or.inr ⟨j + 1, by omega, by omega, ?_⟩
          simpa using hget
      · rw [if_neg hd]
        rcases ih b (i + 1) with h | ⟨j, hj, hfst, hget⟩
        · exact Or.inl h
        · refine Or.inr ⟨j + 1, by omega, by omega, ?_⟩
          simpa using hget

theorem bestOf_append_zero (ds : List ℚ) :
    ∀ (b : Nat × ℚ) (i : Nat), (∀ d ∈ ds, 0 < d) → 0 < b.2 →
      bestOf b (ds ++ [0]) i = (i + ds.length, 0) := by
  induction ds with
  | nil =>
      intro b i _ hb
      simp only [List.nil_append, bestOf, List.length_nil, Nat.add_zero]
      rw [if_pos hb]
  | cons d rest ih =>
      intro b i hall hb
      simp only [List.cons_append, bestOf, List.length_cons]
      have hd0 : 0 < d := hall d (List.mem_cons_self _ _)
      have hrest : ∀ x ∈ rest, 0 < x := fun x hx => hall x (List.mem_cons_of_mem _ hx)
      by_cases hd : d < b.2
      · rw [if_pos hd]
        have h2 := ih (i, d) (i + 1) hrest hd0
        have h3 : i + 1 + rest.length = i + (rest.length + 1) := by omega
        rw [h3] at h2
        exact h2
      · rw [if_neg hd]
        have h2 := ih b (i + 1) hrest hb
        have h3 : i + 1 + rest.length = i + (rest.length + 1) := by omega
        rw [h3] at h2
        exact h2

theorem searchNearest_nil (q : List ℚ) : searchNearest [] q = (-1, FLT_MAX) := rfl

theorem searchNearest_spec (index : List (List ℚ)) (q : List ℚ) (h : index ≠ []) :
    ∃ (j : Nat) (v : List ℚ), (searchNearest index q).1 = (j : Int) ∧ j < index.length ∧
      index.get? j = some v ∧ (searchNearest index q).2 = sqDist q v ∧
      ∀ w ∈ index, sqDist q v ≤ sqDist q w := by
  cases index with
  | nil => exact absurd rfl h
  | cons u us =>
      simp only [searchNearest]
      obtain ⟨hle, hmem⟩ := bestOf_snd_le (us.map fun v => sqDist q v) (0, sqDist q u) 1
      rcases bestOf_get (us.map fun v => sqDist q v) (0, sqDist q u) 1 with
        heq | ⟨j, hj, hfst, hget⟩
      · refine ⟨0, u, ?_, by simp, rfl, ?_, ?_⟩
        · rw [heq]
        · rw [heq]
        · intro w hw
          rcases List.mem_cons.mp hw with hw | hw
          · rw [hw]
          · have h2 := hmem (sqDist q w) (List.mem_map_of_mem _ hw)
            rw [heq] at h2
            exact h2
      · rw [List.get?_map] at hget
        obtain ⟨v, hv, hfv⟩ := Option.map_eq_some'.mp hget
        rw [List.length_map] at hj
        refine ⟨j + 1, v, ?_, by simp; omega, ?_, ?_, ?_⟩
        · rw [hfst]; omega
        · rw [List.get?_cons_succ]
          exact hv
        · rw [← hfv]
        · intro w hw
          rw [← hfv] at hle hmem
          rcases List.mem_cons.mp hw with hw | hw
          · rw [hw]; exact hle
          · exact hmem (sqDist q w) (List.mem_map_of_mem _ hw)

theorem searchNearest_le_iff (index : List (List ℚ)) (q : List ℚ) (h : index ≠ []) (t : ℚ) :
    (searchNearest index q).2 ≤ t ↔ ∃ v ∈ index, sqDist q v ≤ t := by
  obtain ⟨j, v, hfst, hj, hget, hsnd, hmin⟩ := searchNearest_spec index q h
  constructor
  · intro hle
    rw [hsnd] at hle
    exact ⟨v, List.get?_mem hget, hle⟩
  · rintro ⟨w, hw, hwt⟩
    rw [hsnd]
    exact le_trans (hmin w hw) hwt

theorem searchNearest_valid (index : List (List ℚ)) (q : List ℚ) (h : index ≠ []) :
    (searchNearest index q).1 ≠ -1 ∧ 0 ≤ (searchNearest index q).1 ∧
      (searchNearest index q).1.toNat < index.length ∧ 0 ≤ (searchNearest index q).2 := by
  obtain ⟨j, v, hfst, hj, hget, hsnd, hmin⟩ := searchNearest_spec index q h
  refine ⟨?_, ?_, ?_, ?_⟩
  · rw [hfst]; omega
  · rw [hfst]; omega
  · rw [hfst]; simpa using hj
  · rw [hsnd]; exact sqDist_nonneg q v

theorem searchNearest_append_self (index : List (List ℚ)) (e : List ℚ)
    (hpos : ∀ v ∈ index, 0 < sqDist e v) :
    searchNearest (index ++ [e]) e = ((index.length : Int), 0) := by
  cases index with
  | nil => simp [searchNearest, sqDist_self, bestOf]
  | cons u us =>
      simp only [List.cons_append, searchNearest, List.map_append, List.map_cons,
        List.map_nil, sqDist_self, List.length_cons]
      have h2 := bestOf_append_zero (us.map fun v => sqDist e v) (0, sqDist e u) 1
        (by
          intro d hd
          obtain ⟨v, hv, hfv⟩ := List.mem_map.mp hd
          rw [← hfv]
          exact hpos v (List.mem_cons_of_mem _ hv))
        (hpos u (List.mem_cons_self _ _))
      rw [h2, List.length_map]
      have : 1 + us.length = us.length + 1 := by omega
      rw [this]

theorem askMiss_shape (api_key : Option String) (http : String → HttpResult)
    (s : SCState) (q : String) (e : List ℚ) :
    (askMiss api_key http s q e).hit = false ∧
      (askMiss api_key http s q e).providerCalls = 1 := by
  cases hg : generate_answer api_key (http q) with
  | error err => simp [askMiss, hg]
  | ok v =>
      obtain ⟨a, r⟩ := v
      simp [askMiss, hg]

theorem ask_hit_eq (enc : String → List ℚ) (api_key : Option String)
    (http : String → HttpResult) (s : SCState) (q : String)
    (hdim : (enc q).length = embedDim)
    (hG : 0 ≤ (searchNearest s.index (enc q)).2 ∧ (searchNearest s.index (enc q)).1 ≠ -1 ∧
      (searchNearest s.index (enc q)).2 ≤ s.euclidean_threshold) :
    ask enc api_key http s q =
      match pyGet s.cache.response_text (searchNearest s.index (enc q)).1 with
      | some t =>
          { result := .ok t, state := s, providerCalls := 0, fileWrites := 0, hit := true }
      | none =>
          { result := .error (.runtimeError "Error during ask method: list index out of range"),
            state := s, providerCalls := 0, fileWrites := 0, hit := true } := by
  rw [ask, if_pos hdim, if_pos hG]

theorem ask_miss_eq (enc : String → List ℚ) (api_key : Option String)
    (http : String → HttpResult) (s : SCState) (q : String)
    (hdim : (enc q).length = embedDim)
    (hG : ¬ (0 ≤ (searchNearest s.index (enc q)).2 ∧ (searchNearest s.index (enc q)).1 ≠ -1 ∧
      (searchNearest s.index (enc q)).2 ≤ s.euclidean_threshold)) :
    ask enc api_key http s q = askMiss api_key http s q (enc q) := by
  rw [ask, if_pos hdim, if_neg hG]

theorem ask_miss_of_far (enc : String → List ℚ) (api_key : Option String)
    (http : String → HttpResult) (s : SCState) (q : String)
    (hdim : (enc q).length = embedDim)
    (hmiss : ∀ v ∈ s.index, s.euclidean_threshold < sqDist (enc q) v) :
    ask enc api_key http s q = askMiss api_key http s q (enc q) := by
  apply ask_miss_eq enc api_key http s q hdim
  intro hG
  by_cases hne : s.index = []
  · rw [hne, searchNearest_nil] at hG
    exact hG.2.1 rfl
  · obtain ⟨j, v, hfst, hj, hget, hsnd, hmin⟩ := searchNearest_spec s.index (enc q) hne
    have hv : v ∈ s.index := List.get?_mem hget
    rw [hsnd] at hG
    exact absurd hG.2.2 (not_le.mpr (hmiss v hv))

theorem pyGet_nonneg (l : List String) (i : Int) (h : 0 ≤ i) :
    pyGet l i = l.get? i.toNat := by
  simp only [pyGet]
  rw [if_neg (not_lt.mpr h), if_pos h]

/-! Evaluation helpers for concrete 768-dimensional vectors of the form
head :: List.replicate 767 0, used by witnesses and counterexamples. -/

theorem zipSq_replicate_zero (n : Nat) :
    List.zipWith (fun a b => (a - b) ^ 2) (List.replicate n (0 : ℚ)) (List.replicate n 0) =
      List.replicate n 0 := by
  induction n with
  | zero => rfl
  | succ k ih => simp [List.replicate_succ, ih]

theorem sqDist_cons_replicate (a b : ℚ) (n : Nat) :
    sqDist (a :: List.replicate n 0) (b :: List.replicate n 0) = (a - b) ^ 2 := by
  unfold sqDist
  rw [List.zipWith_cons_cons, zipSq_replicate_zero, List.sum_cons, List.sum_replicate,
    smul_zero, add_zero]

/-- C9: when the durable store file does not exist, load_cache returns
the empty structure (all four lists empty) and does not fail, and
construction succeeds with an empty cache: absence of the file is a
normal first-run condition, not an error. -/
theorem load_cache_absent_returns_empty :
    load_cache DiskState.absent = .ok emptyCache ∧
    emptyCache.questions = [] ∧ emptyCache.embeddings = [] ∧
    emptyCache.answers = [] ∧ emptyCache.response_text = [] ∧
    scInit DiskState.absent false =
      .ok { index := [], cache := emptyCache, euclidean_threshold := 3 / 10,
            disk := DiskState.absent } :=
  ⟨rfl, rfl, rfl, rfl, rfl, rfl⟩

/-- C1: evaluation at the failing input.  Constructing an instance with
clear_on_init false over an existing parseable cache file holding one
entry loads the four lists (length 1) but leaves the faiss index empty
(size 0), so the claimed invariant index.size() == entry_count fails in
a reachable state: the loaded embeddings are never inserted back into
the index. -/
theorem init_load_leaves_index_empty :
    (scInit (DiskState.parsed
        { questions := ["What is the capital of France?"],
          embeddings := [List.replicate embedDim 0],
          answers := [{ data_response_text := some "Paris" }],
          response_text := ["Paris"] }) false).map
      (fun s => (s.index.length, s.cache.questions.length, s.cache.embeddings.length,
        s.cache.answers.length, s.cache.response_text.length)) =
    .ok (0, 1, 1, 1, 1) := rfl

/-- Store contents with four lists of unequal lengths, as a parseable
JSON file could contain. -/
def mismatchedStore : Cache :=
  { questions := ["q1", "q2"], embeddings := [], answers := [],
    response_text := ["a1"] }

/-- C7 counterexample: a store file that parses to four lists of unequal
lengths loads successfully instead of failing, and an unparseable store
raises the untagged JSONDecodeError instead of a tagged CorruptStore; no
CorruptStore-tagged failure exists anywhere in the code. -/
theorem load_cache_no_validation_cx :
    load_cache (DiskState.parsed mismatchedStore) = .ok mismatchedStore ∧
    mismatchedStore.questions.length ≠ mismatchedStore.embeddings.length ∧
    load_cache DiskState.unparseable = .error .jsonDecodeError :=
  ⟨rfl, by simp [mismatchedStore], rfl⟩

/-- C7 amended: when the store file cannot be parsed, loading raises the
untagged parser error (JSONDecodeError propagates out of load_cache);
when it parses, loading succeeds unconditionally with no validation of
the four list lengths. -/
theorem load_cache_accepts_parsed_no_validation (c : Cache) :
    load_cache (DiskState.parsed c) = .ok c ∧
    load_cache DiskState.unparseable = .error PyError.jsonDecodeError :=
  ⟨rfl, rfl⟩

/-- C8 counterexample: non-2xx status, network failure and malformed
body are all caught inside make_prediction and collapsed to the same
None value rather than surfaced as distinguishable failures; the
generate_answer results for a non-2xx status and a network failure are
identical, so the caller of ask cannot distinguish them. -/
theorem make_prediction_swallows_failures_cx :
    make_prediction (some "key") (HttpResult.httpError 500) = .ok none ∧
    make_prediction (some "key") HttpResult.requestException = .ok none ∧
    make_prediction (some "key") (HttpResult.success none) = .ok none ∧
    generate_answer (some "key") (HttpResult.httpError 500) =
      generate_answer (some "key") HttpResult.requestException :=
  ⟨rfl, rfl, rfl, rfl⟩

/-- C8 amended: every non-success AnswerProvider outcome does surface to
the caller of ask as a failure, but only as one collapsed generic
RuntimeError raised by generate_answer after make_prediction has caught
the original failure and turned it into None: the failure kinds are not
distinguishable from each other.  This theorem proves the surfacing
part: whenever the HTTP outcome is not a 200 response carrying a
data.response_text field, generate_answer raises a RuntimeError. -/
theorem generation_failures_surface_as_runtime_error (api_key : Option String)
    (http : HttpResult) (h : httpSuccessful http = false) :
    ∃ m, generate_answer api_key http = .error (.runtimeError m) := by
  cases api_key with
  | none => exact ⟨_, rfl⟩
  | some k =>
      by_cases hk : k = ""
      · subst hk
        exact ⟨_, rfl⟩
      · cases http with
        | success parsed =>
            cases parsed with
            | none =>
                refine ⟨"Error during generate_answer method: " ++
                  "NoneType object is not subscriptable", ?_⟩
                simp only [generate_answer, make_prediction, if_neg hk, PyError.msg]
            | some r =>
                cases hr : r.data_response_text with
                | none =>
                    refine ⟨"Error during generate_answer method: " ++ "response_text", ?_⟩
                    simp only [generate_answer, make_prediction, if_neg hk, hr, PyError.msg]
                | some t => simp [httpSuccessful, hr] at h
        | httpError st =>
            refine ⟨"Error during generate_answer method: " ++
              "NoneType object is not subscriptable", ?_⟩
            simp only [generate_answer, make_prediction, if_neg hk, PyError.msg]
        | requestException =>
            refine ⟨"Error during generate_answer method: " ++
              "NoneType object is not subscriptable", ?_⟩
            simp only [generate_answer, make_prediction, if_neg hk, PyError.msg]

/-- Witness for the amended C8 theorem at a concrete non-2xx response. -/
theorem generation_failures_surface_witness :
    httpSuccessful (HttpResult.httpError 404) = false ∧
    ∃ m, generate_answer (some "k") (HttpResult.httpError 404) =
      .error (.runtimeError m) :=
  ⟨rfl, generation_failures_surface_as_runtime_error (some "k") (HttpResult.httpError 404) rfl⟩

/-- C2: with a dimension-correct encoder, ask takes the hit path iff the
index is non-empty and the squared euclidean distance from the query
embedding to its nearest stored vector is at most euclidean_threshold
(equivalently, some stored vector is within the threshold); distance
exactly equal to the threshold hits, strictly greater misses. -/
theorem ask_hit_iff_within_threshold (enc : String → List ℚ) (api_key : Option String)
    (http : String → HttpResult) (s : SCState) (q : String)
    (hdim : (enc q).length = embedDim) :
    (ask enc api_key http s q).hit = true ↔
      s.index ≠ [] ∧ ∃ v ∈ s.index, sqDist (enc q) v ≤ s.euclidean_threshold := by
  by_cases hne : s.index = []
  · have hG : ¬ (0 ≤ (searchNearest s.index (enc q)).2 ∧
        (searchNearest s.index (enc q)).1 ≠ -1 ∧
        (searchNearest s.index (enc q)).2 ≤ s.euclidean_threshold) := by
      rw [hne, searchNearest_nil]
      simp
    rw [ask_miss_eq enc api_key http s q hdim hG]
    refine iff_of_false ?_ ?_
    · simp [(askMiss_shape api_key http s q (enc q)).1]
    · rintro ⟨h1, _⟩
      exact h1 hne
  · obtain ⟨hm1, hnn, hlt, hd0⟩ := searchNearest_valid s.index (enc q) hne
    by_cases hth : (searchNearest s.index (enc q)).2 ≤ s.euclidean_threshold
    · have hG : 0 ≤ (searchNearest s.index (enc q)).2 ∧
          (searchNearest s.index (enc q)).1 ≠ -1 ∧
          (searchNearest s.index (enc q)).2 ≤ s.euclidean_threshold := ⟨hd0, hm1, hth⟩
      rw [ask_hit_eq enc api_key http s q hdim hG]
      refine iff_of_true ?_ ⟨hne, (searchNearest_le_iff s.index (enc q) hne _).mp hth⟩
      cases pyGet s.cache.response_text (searchNearest s.index (enc q)).1 <;> rfl
    · have hG : ¬ (0 ≤ (searchNearest s.index (enc q)).2 ∧
          (searchNearest s.index (enc q)).1 ≠ -1 ∧
          (searchNearest s.index (enc q)).2 ≤ s.euclidean_threshold) :=
        fun hG => hth hG.2.2
      rw [ask_miss_eq enc api_key http s q hdim hG]
      refine iff_of_false ?_ ?_
      · simp [(askMiss_shape api_key http s q (enc q)).1]
      · rintro ⟨_, hv⟩
        exact hth ((searchNearest_le_iff s.index (enc q) hne _).mpr hv)

/-- Encoder used by witnesses: every question maps to the same
768-dimensional vector. -/
def wEnc : String → List ℚ := fun _ => (0 : ℚ) :: List.replicate 767 0

/-- HTTP behaviour used by witnesses: every query succeeds with a JSON
body carrying response text paris. -/
def wHttp : String → HttpResult :=
  fun _ => .success (some { data_response_text := some "paris" })

/-- Witness state holding one committed entry whose embedding equals the
witness encoder output, so a further ask is a hit at distance zero. -/
def wHitState : SCState :=
  { index := [(0 : ℚ) :: List.replicate 767 0],
    cache := { questions := ["q0"], embeddings := [(0 : ℚ) :: List.replicate 767 0],
               answers := [{ data_response_text := some "paris" }],
               response_text := ["paris"] },
    euclidean_threshold := 3 / 10, disk := DiskState.absent }

theorem wEnc_dim (q : String) : (wEnc q).length = embedDim := by
  show ((0 : ℚ) :: List.replicate 767 0).length = embedDim
  rw [List.length_cons, List.length_replicate]
  rfl

/-- Witness for the C2 theorem at a concrete hitting instance. -/
theorem ask_hit_iff_within_threshold_witness :
    (wEnc "q1").length = embedDim ∧
    ((ask wEnc (some "k") wHttp wHitState "q1").hit = true ↔
      wHitState.index ≠ [] ∧
        ∃ v ∈ wHitState.index, sqDist (wEnc "q1") v ≤ wHitState.euclidean_threshold) :=
  ⟨wEnc_dim "q1",
    ask_hit_iff_within_threshold wEnc (some "k") wHttp wHitState "q1" (wEnc_dim "q1")⟩

/-- C3: on a cache hit ask returns the stored response_text at the
position returned by the nearest-neighbour search, leaves the state
(index, lists and durable file) unchanged, performs no AnswerProvider
call and no file write, and its whole outcome is independent of the
durable file contents (it never reads the file). -/
theorem ask_hit_frame (enc : String → List ℚ) (api_key : Option String)
    (http : String → HttpResult) (s : SCState) (q : String)
    (hdim : (enc q).length = embedDim)
    (hlen : s.index.length ≤ s.cache.response_text.length)
    (hhit : (ask enc api_key http s q).hit = true) :
    (ask enc api_key http s q).state = s ∧
    (ask enc api_key http s q).providerCalls = 0 ∧
    (ask enc api_key http s q).fileWrites = 0 ∧
    (∃ t, s.cache.response_text.get? (searchNearest s.index (enc q)).1.toNat = some t ∧
      (ask enc api_key http s q).result = .ok t) ∧
    ∀ d : DiskState,
      ask enc api_key http { s with disk := d } q =
        { result := (ask enc api_key http s q).result,
          state := { s with disk := d },
          providerCalls := 0, fileWrites := 0, hit := true } := by
  have hG : 0 ≤ (searchNearest s.index (enc q)).2 ∧
      (searchNearest s.index (enc q)).1 ≠ -1 ∧
      (searchNearest s.index (enc q)).2 ≤ s.euclidean_threshold := by
    by_contra hG
    rw [ask_miss_eq enc api_key http s q hdim hG,
      (askMiss_shape api_key http s q (enc q)).1] at hhit
    exact Bool.false_ne_true hhit
  have hne : s.index ≠ [] := by
    intro hnil
    rw [hnil, searchNearest_nil] at hG
    exact hG.2.1 rfl
  obtain ⟨hm1, hnn, hlt, hd0⟩ := searchNearest_valid s.index (enc q) hne
  have hlt2 : (searchNearest s.index (enc q)).1.toNat < s.cache.response_text.length :=
    lt_of_lt_of_le hlt hlen
  have hpg : pyGet s.cache.response_text (searchNearest s.index (enc q)).1 =
      some (s.cache.response_text.get ⟨(searchNearest s.index (enc q)).1.toNat, hlt2⟩) := by
    rw [pyGet_nonneg _ _ hnn, List.get?_eq_get hlt2]
  have hask : ask enc api_key http s q =
      { result := .ok (s.cache.response_text.get
          ⟨(searchNearest s.index (enc q)).1.toNat, hlt2⟩),
        state := s, providerCalls := 0, fileWrites := 0, hit := true } := by
    rw [ask_hit_eq enc api_key http s q hdim hG, hpg]
  refine ⟨by rw [hask], by rw [hask], by rw [hask], ?_, ?_⟩
  · exact ⟨_, List.get?_eq_get hlt2, by rw [hask]⟩
  · intro d
    have hask2 : ask enc api_key http { s with disk := d } q =
        { result := .ok (s.cache.response_text.get
            ⟨(searchNearest s.index (enc q)).1.toNat, hlt2⟩),
          state := { s with disk := d }, providerCalls := 0, fileWrites := 0,
          hit := true } := by
      rw [ask_hit_eq enc api_key http { s with disk := d } q hdim hG]
      dsimp only
      rw [hpg]
    rw [hask, hask2]

theorem wHit_search : searchNearest wHitState.index (wEnc "q1") = (0, 0) := by
  show searchNearest [(0 : ℚ) :: List.replicate 767 0] ((0 : ℚ) :: List.replicate 767 0) =
    (0, 0)
  simp only [searchNearest, List.map_nil, bestOf, sqDist_self, Nat.cast_zero]

theorem wHit_hit : (ask wEnc (some "k") wHttp wHitState "q1").hit = true := by
  have hG : 0 ≤ (searchNearest wHitState.index (wEnc "q1")).2 ∧
      (searchNearest wHitState.index (wEnc "q1")).1 ≠ -1 ∧
      (searchNearest wHitState.index (wEnc "q1")).2 ≤ wHitState.euclidean_threshold := by
    rw [wHit_search]
    refine ⟨le_refl 0, by norm_num, by norm_num [wHitState]⟩
  rw [ask_hit_eq wEnc (some "k") wHttp wHitState "q1" (wEnc_dim "q1") hG, wHit_search]
  rfl

theorem wHit_len : wHitState.index.length ≤ wHitState.cache.response_text.length :=
  le_refl 1

/-- Witness for the C3 theorem at a concrete hitting instance. -/
theorem ask_hit_frame_witness :
    (wEnc "q1").length = embedDim ∧
    wHitState.index.length ≤ wHitState.cache.response_text.length ∧
    (ask wEnc (some "k") wHttp wHitState "q1").hit = true ∧
    ((ask wEnc (some "k") wHttp wHitState "q1").state = wHitState ∧
      (ask wEnc (some "k") wHttp wHitState "q1").providerCalls = 0 ∧
      (ask wEnc (some "k") wHttp wHitState "q1").fileWrites = 0 ∧
      (∃ t, wHitState.cache.response_text.get?
          (searchNearest wHitState.index (wEnc "q1")).1.toNat = some t ∧
        (ask wEnc (some "k") wHttp wHitState "q1").result = .ok t) ∧
      ∀ d : DiskState,
        ask wEnc (some "k") wHttp { wHitState with disk := d } "q1" =
          { result := (ask wEnc (some "k") wHttp wHitState "q1").result,
            state := { wHitState with disk := d },
            providerCalls := 0, fileWrites := 0, hit := true }) :=
  ⟨wEnc_dim "q1", wHit_len, wHit_hit,
    ask_hit_frame wEnc (some "k") wHttp wHitState "q1" (wEnc_dim "q1") wHit_len wHit_hit⟩

/-- C10: on an empty index the search is still executed and returns the
faiss sentinel (-1, FLT_MAX); the guard I[0][0] != -1 routes this to the
miss path, so ask never takes the hit branch (the list lookup with a
negative position is unreachable) and never fails while probing: the
generator is always reached. -/
theorem ask_empty_index_misses_safely (enc : String → List ℚ) (api_key : Option String)
    (http : String → HttpResult) (s : SCState) (q : String)
    (hdim : (enc q).length = embedDim) (hempty : s.index = []) :
    searchNearest s.index (enc q) = (-1, FLT_MAX) ∧
    (ask enc api_key http s q).hit = false ∧
    (ask enc api_key http s q).providerCalls = 1 := by
  have hsn : searchNearest s.index (enc q) = (-1, FLT_MAX) := by
    rw [hempty, searchNearest_nil]
  have hG : ¬ (0 ≤ (searchNearest s.index (enc q)).2 ∧
      (searchNearest s.index (enc q)).1 ≠ -1 ∧
      (searchNearest s.index (enc q)).2 ≤ s.euclidean_threshold) := by
    rw [hsn]
    simp
  rw [ask_miss_eq enc api_key http s q hdim hG]
  exact ⟨hsn, (askMiss_shape api_key http s q (enc q)).1,
    (askMiss_shape api_key http s q (enc q)).2⟩

/-- Witness state for miss-path claims: a freshly constructed empty
cache instance. -/
def wEmptyState : SCState :=
  { index := [], cache := emptyCache, euclidean_threshold := 3 / 10,
    disk := DiskState.absent }

/-- Witness for the C10 theorem on the empty instance. -/
theorem ask_empty_index_misses_safely_witness :
    (wEnc "q1").length = embedDim ∧ wEmptyState.index = [] ∧
    (searchNearest wEmptyState.index (wEnc "q1") = (-1, FLT_MAX) ∧
      (ask wEnc (some "k") wHttp wEmptyState "q1").hit = false ∧
      (ask wEnc (some "k") wHttp wEmptyState "q1").providerCalls = 1) :=
  ⟨wEnc_dim "q1", rfl,
    ask_empty_index_misses_safely wEnc (some "k") wHttp wEmptyState "q1"
      (wEnc_dim "q1") rfl⟩

/-- C5: if the generator fails on the miss path, ask surfaces the
failure as a RuntimeError and the cache state is completely unchanged:
no entry is appended to any list, no vector is added to the index, and
the durable file is not rewritten. -/
theorem ask_generation_failure_state_unchanged (enc : String → List ℚ)
    (api_key : Option String) (http : String → HttpResult) (s : SCState) (q : String)
    (hdim : (enc q).length = embedDim)
    (hmiss : ∀ v ∈ s.index, s.euclidean_threshold < sqDist (enc q) v)
    (err : PyError) (hgen : generate_answer api_key (http q) = .error err) :
    (ask enc api_key http s q).result =
      .error (.runtimeError ("Error during ask method: " ++ err.msg)) ∧
    (ask enc api_key http s q).state = s ∧
    (ask enc api_key http s q).fileWrites = 0 ∧
    (ask enc api_key http s q).providerCalls = 1 := by
  rw [ask_miss_of_far enc api_key http s q hdim hmiss]
  simp [askMiss, hgen]

/-- HTTP behaviour used by failure witnesses: every query gets a 500. -/
def wFailHttp : String → HttpResult := fun _ => .httpError 500

/-- Witness for the C5 theorem: a failing generator on the empty
instance leaves the state unchanged and raises. -/
theorem ask_generation_failure_witness :
    (wEnc "q1").length = embedDim ∧
    (∀ v ∈ wEmptyState.index, wEmptyState.euclidean_threshold < sqDist (wEnc "q1") v) ∧
    generate_answer (some "k") (wFailHttp "q1") =
      .error (.runtimeError ("Error during generate_answer method: " ++
        "NoneType object is not subscriptable")) ∧
    ((ask wEnc (some "k") wFailHttp wEmptyState "q1").result =
        .error (.runtimeError ("Error during ask method: " ++
          (PyError.runtimeError ("Error during generate_answer method: " ++
            "NoneType object is not subscriptable")).msg)) ∧
      (ask wEnc (some "k") wFailHttp wEmptyState "q1").state = wEmptyState ∧
      (ask wEnc (some "k") wFailHttp wEmptyState "q1").fileWrites = 0 ∧
      (ask wEnc (some "k") wFailHttp wEmptyState "q1").providerCalls = 1) :=
  ⟨wEnc_dim "q1", by simp [wEmptyState], rfl,
    ask_generation_failure_state_unchanged wEnc (some "k") wFailHttp wEmptyState "q1"
      (wEnc_dim "q1") (by simp [wEmptyState])
      (.runtimeError ("Error during generate_answer method: " ++
        "NoneType object is not subscriptable")) rfl⟩

theorem ask_hit_some (enc : String → List ℚ) (api_key : Option String)
    (http : String → HttpResult) (s : SCState) (q : String) (t : String)
    (hdim : (enc q).length = embedDim)
    (hG : 0 ≤ (searchNearest s.index (enc q)).2 ∧
      (searchNearest s.index (enc q)).1 ≠ -1 ∧
      (searchNearest s.index (enc q)).2 ≤ s.euclidean_threshold)
    (hpg : pyGet s.cache.response_text (searchNearest s.index (enc q)).1 = some t) :
    ask enc api_key http s q =
      { result := .ok t, state := s, providerCalls := 0, fileWrites := 0, hit := true } := by
  rw [ask_hit_eq enc api_key http s q hdim hG, hpg]

/-- C4: miss-then-hit idempotence.  From a consistent state in which the
question misses and with a successful generator, asking the same
question twice in a row performs exactly one AnswerProvider call in
total, appends exactly one entry, and the second call is a hit that
returns the same response_text without touching the state again. -/
theorem ask_miss_then_hit_idempotent (enc : String → List ℚ) (api_key : Option String)
    (http : String → HttpResult) (s : SCState) (q : String)
    (hdim : (enc q).length = embedDim)
    (hthr : 0 ≤ s.euclidean_threshold)
    (hlen : s.index.length = s.cache.response_text.length)
    (hmiss : ∀ v ∈ s.index, s.euclidean_threshold < sqDist (enc q) v)
    (a : AresResult) (r : String)
    (hgen : generate_answer api_key (http q) = .ok (a, r)) :
    (ask enc api_key http s q).providerCalls = 1 ∧
    (ask enc api_key http (ask enc api_key http s q).state q).providerCalls = 0 ∧
    (ask enc api_key http s q).state.cache.questions.length =
      s.cache.questions.length + 1 ∧
    (ask enc api_key http s q).state.index.length = s.index.length + 1 ∧
    (ask enc api_key http (ask enc api_key http s q).state q).state =
      (ask enc api_key http s q).state ∧
    (ask enc api_key http (ask enc api_key http s q).state q).hit = true ∧
    (ask enc api_key http s q).result = .ok r ∧
    (ask enc api_key http (ask enc api_key http s q).state q).result = .ok r := by
  have hpos : ∀ v ∈ s.index, 0 < sqDist (enc q) v :=
    fun v hv => lt_of_le_of_lt hthr (hmiss v hv)
  have hsn2 : searchNearest (s.index ++ [enc q]) (enc q) = ((s.index.length : Int), 0) :=
    searchNearest_append_self s.index (enc q) hpos
  set C2 : Cache :=
    { questions := s.cache.questions ++ [q],
      embeddings := s.cache.embeddings ++ [enc q],
      answers := s.cache.answers ++ [a],
      response_text := s.cache.response_text ++ [r] } with hC2
  set S2 : SCState :=
    { index := s.index ++ [enc q], cache := C2,
      euclidean_threshold := s.euclidean_threshold, disk := .parsed C2 } with hS2
  have h1 : ask enc api_key http s q =
      { result := .ok r, state := S2, providerCalls := 1, fileWrites := 1, hit := false } := by
    rw [ask_miss_of_far enc api_key http s q hdim hmiss]
    simp [askMiss, hgen, save_cache, hC2, hS2]
  have hG2 : 0 ≤ (searchNearest S2.index (enc q)).2 ∧
      (searchNearest S2.index (enc q)).1 ≠ -1 ∧
      (searchNearest S2.index (enc q)).2 ≤ S2.euclidean_threshold := by
    rw [hS2]
    dsimp only
    rw [hsn2]
    exact ⟨le_refl 0, by omega, hthr⟩
  have hpg2 : pyGet S2.cache.response_text (searchNearest S2.index (enc q)).1 = some r := by
    rw [hS2]
    dsimp only
    rw [hsn2, pyGet_nonneg _ _ (Int.natCast_nonneg _), Int.toNat_natCast, hlen]
    exact List.get?_concat_length _ _
  have h2 : ask enc api_key http S2 q =
      { result := .ok r, state := S2, providerCalls := 0, fileWrites := 0, hit := true } :=
    ask_hit_some enc api_key http S2 q r hdim hG2 hpg2
  rw [h1]
  dsimp only
  rw [h2]
  refine ⟨rfl, rfl, ?_, ?_, rfl, rfl, rfl, rfl⟩
  · simp
  · simp

/-- Witness for the C4 theorem: asking the same question twice on the
fresh empty instance with a successful generator. -/
theorem ask_miss_then_hit_idempotent_witness :
    (wEnc "q1").length = embedDim ∧
    0 ≤ wEmptyState.euclidean_threshold ∧
    wEmptyState.index.length = wEmptyState.cache.response_text.length ∧
    (∀ v ∈ wEmptyState.index, wEmptyState.euclidean_threshold < sqDist (wEnc "q1") v) ∧
    generate_answer (some "k") (wHttp "q1") =
      .ok ({ data_response_text := some "paris" }, "paris") ∧
    ((ask wEnc (some "k") wHttp wEmptyState "q1").providerCalls = 1 ∧
      (ask wEnc (some "k") wHttp
        (ask wEnc (some "k") wHttp wEmptyState "q1").state "q1").providerCalls = 0 ∧
      (ask wEnc (some "k") wHttp wEmptyState "q1").state.cache.questions.length =
        wEmptyState.cache.questions.length + 1 ∧
      (ask wEnc (some "k") wHttp wEmptyState "q1").state.index.length =
        wEmptyState.index.length + 1 ∧
      (ask wEnc (some "k") wHttp
          (ask wEnc (some "k") wHttp wEmptyState "q1").state "q1").state =
        (ask wEnc (some "k") wHttp wEmptyState "q1").state ∧
      (ask wEnc (some "k") wHttp
        (ask wEnc (some "k") wHttp wEmptyState "q1").state "q1").hit = true ∧
      (ask wEnc (some "k") wHttp wEmptyState "q1").result = .ok "paris" ∧
      (ask wEnc (some "k") wHttp
        (ask wEnc (some "k") wHttp wEmptyState "q1").state "q1").result = .ok "paris") :=
  ⟨wEnc_dim "q1", by norm_num [wEmptyState], rfl, by simp [wEmptyState], rfl,
    ask_miss_then_hit_idempotent wEnc (some "k") wHttp wEmptyState "q1" (wEnc_dim "q1")
      (by norm_num [wEmptyState]) rfl (by simp [wEmptyState])
      { data_response_text := some "paris" } "paris" rfl⟩

/-- C6 amended: if some stored vector is within euclidean_threshold of
the query embedding then ask makes no AnswerProvider call, changes no
state, and returns the response_text stored at the position of the
nearest stored entry; this equals the response_text of a particular
earlier question Q1 only when Q1 holds the returned nearest entry, not
whenever Q1 is merely within the threshold. -/
theorem ask_hit_returns_nearest_entry (enc : String → List ℚ) (api_key : Option String)
    (http : String → HttpResult) (s : SCState) (q : String)
    (hdim : (enc q).length = embedDim)
    (hlen : s.index.length ≤ s.cache.response_text.length)
    (hnear : ∃ v ∈ s.index, sqDist (enc q) v ≤ s.euclidean_threshold) :
    (ask enc api_key http s q).providerCalls = 0 ∧
    (ask enc api_key http s q).state = s ∧
    ∃ (j : Nat) (v : List ℚ) (t : String),
      (searchNearest s.index (enc q)).1 = (j : Int) ∧
      s.index.get? j = some v ∧
      (∀ w ∈ s.index, sqDist (enc q) v ≤ sqDist (enc q) w) ∧
      s.cache.response_text.get? j = some t ∧
      (ask enc api_key http s q).result = .ok t := by
  obtain ⟨v0, hv0, hvt⟩ := hnear
  have hne : s.index ≠ [] := List.ne_nil_of_mem hv0
  obtain ⟨hm1, hnn, hlt, hd0⟩ := searchNearest_valid s.index (enc q) hne
  have hth : (searchNearest s.index (enc q)).2 ≤ s.euclidean_threshold :=
    (searchNearest_le_iff s.index (enc q) hne _).mpr ⟨v0, hv0, hvt⟩
  have hG : 0 ≤ (searchNearest s.index (enc q)).2 ∧
      (searchNearest s.index (enc q)).1 ≠ -1 ∧
      (searchNearest s.index (enc q)).2 ≤ s.euclidean_threshold := ⟨hd0, hm1, hth⟩
  obtain ⟨j, v, hfst, hj, hget, hsnd, hmin⟩ := searchNearest_spec s.index (enc q) hne
  have hj2 : j < s.cache.response_text.length := lt_of_lt_of_le hj hlen
  have htn : (searchNearest s.index (enc q)).1.toNat = j := by
    rw [hfst]
    exact Int.toNat_natCast j
  have hpg : pyGet s.cache.response_text (searchNearest s.index (enc q)).1 =
      some (s.cache.response_text.get ⟨j, hj2⟩) := by
    rw [pyGet_nonneg _ _ hnn, htn, List.get?_eq_get hj2]
  have hask := ask_hit_some enc api_key http s q _ hdim hG hpg
  rw [hask]
  exact ⟨rfl, rfl, j, v, _, hfst, hget, hmin, List.get?_eq_get hj2, rfl⟩

/-- Witness for the amended C6 theorem at a concrete hitting instance. -/
theorem ask_hit_returns_nearest_entry_witness :
    (wEnc "q1").length = embedDim ∧
    wHitState.index.length ≤ wHitState.cache.response_text.length ∧
    (∃ v ∈ wHitState.index,
      sqDist (wEnc "q1") v ≤ wHitState.euclidean_threshold) ∧
    ((ask wEnc (some "k") wHttp wHitState "q1").providerCalls = 0 ∧
      (ask wEnc (some "k") wHttp wHitState "q1").state = wHitState ∧
      ∃ (j : Nat) (v : List ℚ) (t : String),
        (searchNearest wHitState.index (wEnc "q1")).1 = (j : Int) ∧
        wHitState.index.get? j = some v ∧
        (∀ w ∈ wHitState.index, sqDist (wEnc "q1") v ≤ sqDist (wEnc "q1") w) ∧
        wHitState.cache.response_text.get? j = some t ∧
        (ask wEnc (some "k") wHttp wHitState "q1").result = .ok t) :=
  ⟨wEnc_dim "q1", wHit_len,
    ⟨(0 : ℚ) :: List.replicate 767 0, List.mem_cons_self _ _,
      by
        rw [show wEnc "q1" = (0 : ℚ) :: List.replicate 767 0 from rfl, sqDist_self]
        show (0 : ℚ) ≤ 3 / 10
        norm_num⟩,
    ask_hit_returns_nearest_entry wEnc (some "k") wHttp wHitState "q1" (wEnc_dim "q1")
      wHit_len
      ⟨(0 : ℚ) :: List.replicate 767 0, List.mem_cons_self _ _,
        by
          rw [show wEnc "q1" = (0 : ℚ) :: List.replicate 767 0 from rfl, sqDist_self]
          show (0 : ℚ) ≤ 3 / 10
          norm_num⟩⟩

/-- Embedding stored for counterexample question A: head -2/5. -/
def cxE1 : List ℚ := (-2 / 5 : ℚ) :: List.replicate 767 0

/-- Embedding stored for counterexample question B: head 1/2. -/
def cxE2 : List ℚ := (1 / 2 : ℚ) :: List.replicate 767 0

/-- Embedding of counterexample query Q2: head 0. -/
def cxEQ : List ℚ := (0 : ℚ) :: List.replicate 767 0

/-- Deterministic counterexample encoder. -/
def cxEnc : String → List ℚ :=
  fun q => if q = "A" then cxE1 else if q = "B" then cxE2 else cxEQ

/-- Counterexample HTTP behaviour: question A is answered ansA, every
other question ansB. -/
def cxHttp : String → HttpResult := fun q =>
  if q = "A" then .success (some { data_response_text := some "ansA" })
  else .success (some { data_response_text := some "ansB" })

/-- Freshly constructed empty instance for the counterexample run. -/
def cxS0 : SCState :=
  { index := [], cache := emptyCache, euclidean_threshold := 3 / 10,
    disk := DiskState.absent }

/-- Cache contents after answering A. -/
def cxC1 : Cache :=
  { questions := ["A"], embeddings := [cxE1],
    answers := [{ data_response_text := some "ansA" }],
    response_text := ["ansA"] }

/-- State after answering A. -/
def cxS1 : SCState :=
  { index := [cxE1], cache := cxC1, euclidean_threshold := 3 / 10,
    disk := DiskState.parsed cxC1 }

/-- Cache contents after answering A then B. -/
def cxC2 : Cache :=
  { questions := ["A", "B"], embeddings := [cxE1, cxE2],
    answers := [{ data_response_text := some "ansA" },
      { data_response_text := some "ansB" }],
    response_text := ["ansA", "ansB"] }

/-- State after answering A then B. -/
def cxS2 : SCState :=
  { index := [cxE1, cxE2], cache := cxC2, euclidean_threshold := 3 / 10,
    disk := DiskState.parsed cxC2 }

theorem cxEnc_dim (q : String) : (cxEnc q).length = embedDim := by
  simp only [cxEnc, cxE1, cxE2, cxEQ]
  by_cases h1 : q = "A"
  · rw [if_pos h1, List.length_cons, List.length_replicate]
    rfl
  · rw [if_neg h1]
    by_cases h2 : q = "B"
    · rw [if_pos h2, List.length_cons, List.length_replicate]
      rfl
    · rw [if_neg h2, List.length_cons, List.length_replicate]
      rfl

theorem cx_step1 : ask cxEnc (some "k") cxHttp cxS0 "A" =
    { result := .ok "ansA", state := cxS1, providerCalls := 1, fileWrites := 1,
      hit := false } := by
  rw [ask_miss_of_far cxEnc (some "k") cxHttp cxS0 "A" (cxEnc_dim "A")
    (by intro v hv; cases hv)]
  rfl

theorem cx_dBA : sqDist (cxEnc "B") cxE1 = 81 / 100 := by
  rw [show cxEnc "B" = cxE2 from rfl]
  simp only [cxE1, cxE2]
  rw [sqDist_cons_replicate]
  norm_num

theorem cx_step2 : ask cxEnc (some "k") cxHttp cxS1 "B" =
    { result := .ok "ansB", state := cxS2, providerCalls := 1, fileWrites := 1,
      hit := false } := by
  rw [ask_miss_of_far cxEnc (some "k") cxHttp cxS1 "B" (cxEnc_dim "B") ?far]
  · rfl
  case far =>
    intro v hv
    rcases List.mem_singleton.mp hv with hv1
    rw [hv1, cx_dBA]
    show (3 / 10 : ℚ) < 81 / 100
    norm_num

theorem cx_dQA : sqDist (cxEnc "Q2") cxE1 = 4 / 25 := by
  rw [show cxEnc "Q2" = cxEQ from rfl]
  simp only [cxE1, cxEQ]
  rw [sqDist_cons_replicate]
  norm_num

theorem cx_dQB : sqDist (cxEnc "Q2") cxE2 = 1 / 4 := by
  rw [show cxEnc "Q2" = cxEQ from rfl]
  simp only [cxE2, cxEQ]
  rw [sqDist_cons_replicate]
  norm_num

theorem cx_search3 : searchNearest cxS2.index (cxEnc "Q2") = (0, 4 / 25) := by
  show searchNearest [cxE1, cxE2] (cxEnc "Q2") = (0, 4 / 25)
  simp only [searchNearest, List.map_cons, List.map_nil, cx_dQA, cx_dQB, bestOf]
  rw [if_neg (by norm_num)]
  rfl

theorem cx_step3 : ask cxEnc (some "k") cxHttp cxS2 "Q2" =
    { result := .ok "ansA", state := cxS2, providerCalls := 0, fileWrites := 0,
      hit := true } := by
  have hG : 0 ≤ (searchNearest cxS2.index (cxEnc "Q2")).2 ∧
      (searchNearest cxS2.index (cxEnc "Q2")).1 ≠ -1 ∧
      (searchNearest cxS2.index (cxEnc "Q2")).2 ≤ cxS2.euclidean_threshold := by
    rw [cx_search3]
    refine ⟨by norm_num, by norm_num, ?_⟩
    show (4 / 25 : ℚ) ≤ 3 / 10
    norm_num
  have hpg : pyGet cxS2.cache.response_text (searchNearest cxS2.index (cxEnc "Q2")).1 =
      some "ansA" := by
    rw [cx_search3]
    rfl
  exact ask_hit_some cxEnc (some "k") cxHttp cxS2 "Q2" "ansA" (cxEnc_dim "Q2") hG hpg

/-- C6 counterexample: from a freshly constructed empty cache, question
A (embedding head -2/5) and question B (embedding head 1/2) are both
answered by the provider and stored with response texts ansA and ansB.
Query Q2 (embedding head 0) is within euclidean_threshold of the entry
stored for B (squared distance 1/4, at most 3/10), yet ask serves Q2
from cache with ansA, the text of the nearer entry stored for A, not
ansB, refuting the claim that ask returns the text stored for Q1. -/
theorem ask_hit_returns_nearest_entry_cx :
    scInit DiskState.absent false = .ok cxS0 ∧
    (ask cxEnc (some "k") cxHttp cxS0 "A").state = cxS1 ∧
    (ask cxEnc (some "k") cxHttp cxS1 "B").state = cxS2 ∧
    (ask cxEnc (some "k") cxHttp cxS1 "B").result = .ok "ansB" ∧
    cxS2.cache.questions = ["A", "B"] ∧
    cxS2.cache.response_text = ["ansA", "ansB"] ∧
    sqDist (cxEnc "Q2") cxE2 ≤ cxS2.euclidean_threshold ∧
    (ask cxEnc (some "k") cxHttp cxS2 "Q2").providerCalls = 0 ∧
    (ask cxEnc (some "k") cxHttp cxS2 "Q2").result = .ok "ansA" ∧
    "ansA" ≠ "ansB" := by
  refine ⟨rfl, by rw [cx_step1], by rw [cx_step2], by rw [cx_step2], rfl, rfl, ?_,
    by rw [cx_step3], by rw [cx_step3], by decide⟩
  rw [cx_dQB]
  show (1 / 4 : ℚ) ≤ 3 / 10
  norm_num
